import Mathlib

/-!
Verification of the atomic-transition profile-fitting core of the `oracle`
stellar-spectroscopy package against its specification.

The Python sources are embedded shallowly:

* machine floats are modelled as exact rationals (`ℚ`); a value that Python
  would hold as a non-finite float (NaN or ±inf) is modelled as `none` in
  `Option ℚ`, and comparisons against such values are `false`, matching the
  IEEE NaN comparison semantics used by numpy;
* code that can raise returns `Except PyExn _`;
* the one routine of the repository whose file is not present in the sources
  (`oracle.models.profiles.gaussian`, imported by `oracle/models/transitions.py`)
  is modelled from the specification over `ℝ` and clearly marked.
-/

namespace Oracle

/-- Python exceptions that the embedded code can raise. -/
inductive PyExn
  | typeError
  | valueError
  | indexError
  | keyError
  | attributeError
  deriving DecidableEq

/-! ## Species parsing (`oracle/utils.py` and `oracle/models/transitions.py`) -/

/-- The periodic-table symbol list that `utils.atomic_number` (lines 499-511)
and `utils.element` (lines 538-551) build: the table string with the
lanthanoid row spliced in after Ba and the actinoid row after Ra, then split
on whitespace. Written out as the resulting list of symbols, in order. -/
def periodic_table : List String :=
  ["H", "He",
   "Li", "Be", "B", "C", "N", "O", "F", "Ne",
   "Na", "Mg", "Al", "Si", "P", "S", "Cl", "Ar",
   "K", "Ca", "Sc", "Ti", "V", "Cr", "Mn", "Fe", "Co", "Ni", "Cu", "Zn",
   "Ga", "Ge", "As", "Se", "Br", "Kr",
   "Rb", "Sr", "Y", "Zr", "Nb", "Mo", "Tc", "Ru", "Rh", "Pd", "Ag", "Cd",
   "In", "Sn", "Sb", "Te", "I", "Xe",
   "Cs", "Ba",
   "La", "Ce", "Pr", "Nd", "Pm", "Sm", "Eu", "Gd", "Tb", "Dy", "Ho", "Er",
   "Tm", "Yb",
   "Lu", "Hf", "Ta", "W", "Re", "Os", "Ir", "Pt", "Au", "Hg", "Tl", "Pb",
   "Bi", "Po", "At", "Rn",
   "Fr", "Ra",
   "Ac", "Th", "Pa", "U", "Np", "Pu", "Am", "Cm", "Bk", "Cf", "Es", "Fm",
   "Md", "No",
   "Lr", "Rf", "Db", "Sg", "Bh", "Hs", "Mt", "Ds", "Rg", "Cn", "UUt"]

/-- What `utils.atomic_number` hands back for a string argument: either the
atomic number, or -- because line 515 reads `return ValueError(...)` rather
than `raise ValueError(...)` -- an un-raised ValueError exception object. -/
inductive AtomicNumberResult
  | int (n : ℕ)
  | valueErrorObject
  deriving DecidableEq

/-- Embedded from `utils.atomic_number` (utils.py lines 479-517): case-sensitive
lookup of the (whole) argument string in the symbol table. An unknown symbol
does NOT raise; the source returns the constructed ValueError object. -/
def atomic_number (element : String) : AtomicNumberResult :=
  match periodic_table.findIdx? (fun s => s = element) with
  | some i => .int (i + 1)
  | none => .valueErrorObject

/-- Python list indexing `l[i]`, with negative-index wrap-around and an
IndexError outside the range. -/
def pyIndex {α : Type} (l : List α) (i : ℤ) : Except PyExn α :=
  let j : ℤ := if i < 0 then i + l.length else i
  if h : 0 ≤ j ∧ j.toNat < l.length then .ok (l.get ⟨j.toNat, h.2⟩)
  else .error .indexError

/-- Embedded from `utils.element` (utils.py lines 520-552):
`periodic_table[int(atomic_number) - 1]`. -/
def element (z : ℤ) : Except PyExn String :=
  pyIndex periodic_table (z - 1)

/-- Applying `utils.element` to the value `utils.atomic_number` returned, as
`_parse_species` line 721 does: if that value is the un-raised ValueError
object, `int()` inside `element` raises a TypeError. -/
def element_of (x : AtomicNumberResult) : Except PyExn String :=
  match x with
  | .valueErrorObject => .error .typeError
  | .int n => element (n : ℤ)

/-- Python `int()` on a string (used by `_parse_ionisation_level` line 703);
ValueError when the text is not an integer literal. -/
def pyIntOfString (s : String) : Except PyExn ℤ :=
  match s.toInt? with
  | some n => .ok n
  | none => .error .valueError

/-- Embedded from `_parse_ionisation_level` (transitions.py lines 689-703),
string input: upper-case the token; if it contains an I, the level is the
count of I characters, otherwise `int()` of the token. -/
def parse_ionisation_level (ionisation_level : String) : Except PyExn ℤ :=
  let u := ionisation_level.toUpper
  if u.contains 'I' then .ok (u.toList.count 'I' : ℤ)
  else pyIntOfString u

/-- Python `str.split()` (split on whitespace runs, dropping empty pieces). -/
def pySplit (s : String) : List String :=
  (s.split (fun c => c = ' ' ∨ c = '\t' ∨ c = '\n')).filter (fun w => w ≠ "")

/-- Python `int()` truncation of a float (toward zero), on the exact rational
model of the float. -/
def pyIntTrunc (q : ℚ) : ℤ :=
  if q ≥ 0 then ⌊q⌋ else -⌊-q⌋

/-- Embedded from `_parse_species` (transitions.py lines 706-736), applied to a
string that `float()` cannot parse ("Fe", "Fe I", ...). Line 720 passes the
FULL string to `atomic_number`; line 724 parses the ionisation level from the
second whitespace-separated token when the string contains a space, defaulting
to 1; line 727 re-packs the species code as `atomic_number + level/10`. -/
def parse_species_string (species : String) : Except PyExn (String × ℤ × ℤ × ℚ) := do
  let an := atomic_number species
  let el ← element_of an
  let z : ℤ := match an with | .int n => (n : ℤ) | .valueErrorObject => 0
  let ion ← if species.contains ' ' then do
      let w ← pyIndex (pySplit species) 1
      parse_ionisation_level w
    else pure 1
  pure (el, z, ion, (z : ℚ) + (ion : ℚ) / 10)

/-- Embedded from `_parse_species` (transitions.py lines 712-714 and 731-736),
numeric path: `element(int(species))`, `atomic_number = int(species)`,
`ionisation_level = int(10 * (species - atomic_number)) + 1`, and the species
code is returned unchanged. -/
def parse_species_float (species : ℚ) : Except PyExn (String × ℤ × ℤ × ℚ) := do
  let el ← element (pyIntTrunc species)
  let z := pyIntTrunc species
  let ion := pyIntTrunc (10 * (species - (z : ℚ))) + 1
  pure (el, z, ion, species)

/-- Written from the spec's words (section 4.1): numeric codes decode the
ionisation level as `round(10*(species-floor(species)))+1`. For comparison
with the source's truncation-based decoding. -/
def spec_ionisation_of_code (species : ℚ) : ℤ :=
  round (10 * (species - ⌊species⌋)) + 1

end Oracle

instance {ε α : Type} [DecidableEq ε] [DecidableEq α] : DecidableEq (Except ε α) :=
  fun a b =>
    match a, b with
    | .error e, .error f =>
      if h : e = f then .isTrue (by rw [h]) else .isFalse (fun hc => h (by cases hc; rfl))
    | .ok x, .ok y =>
      if h : x = y then .isTrue (by rw [h]) else .isFalse (fun hc => h (by cases hc; rfl))
    | .error _, .ok _ => .isFalse (fun hc => by cases hc)
    | .ok _, .error _ => .isFalse (fun hc => by cases hc)

namespace Oracle

/-! ## Observed spectra and fit_profile argument validation -/

/-- An observed spectrum slice (`oracle.specutils.Spectrum1D` as consumed by
the fitting core): dispersion, flux and inverse-variance arrays. A `none`
entry of `flux` or `ivariance` models a non-finite float (NaN or ±inf). -/
structure Spectrum1D where
  disp : List ℚ
  flux : List (Option ℚ)
  ivariance : List (Option ℚ)
  deriving DecidableEq

/-- Errors raised by the argument validation of `fit_profile`
(transitions.py lines 213-257). -/
inductive FitProfileError
  | indexError
  | outOfBounds
  | unknownKind
  | notImplementedKind
  | badContinuumOrder
  | continuumRegionsNoOverlap
  | badSurrounding
  deriving DecidableEq

/-- Embedded verbatim from `utils.overlap` (utils.py lines 26-27):
`end_b >= start_b and end_b >= start_a`. Note that `end_a` is never
consulted and `end_b >= start_b` compares the second interval with itself. -/
def overlap (start_a end_a start_b end_b : ℚ) : Bool :=
  decide (end_b ≥ start_b) && decide (end_b ≥ start_a)

/-- Written from the spec's words (section 4.3 / section 8): the interval
`[start_a, end_a]` genuinely overlaps the interval `[start_b, end_b]`. For
comparison with the source's `overlap`. -/
def spec_interval_overlap (start_a end_a start_b end_b : ℚ) : Bool :=
  decide (start_a ≤ end_b) && decide (start_b ≤ end_a)

/-- Embedded from `AtomicTransition.fit_profile` argument validation
(transitions.py lines 213-257), in source order: the wavelength bounds check
(line 216, strict inequalities, raising ValueError), the profile-kind
membership check after lower-casing (lines 224-226), the NotImplementedError
for voigt and lorentzian kinds (lines 229-230), the continuum-order check
(lines 232-238), the continuum-regions check (lines 240-251; only the FIRST
region is ever tested because the `break` on line 246 is unconditional, and
the test is `utils.overlap`), and the surrounding check (lines 252-257).
The `continuum_regions` list holds `[start, end]` rows of the
`np.atleast_2d` array, whose `size` is twice the row count. -/
def fit_profile_validate (wavelength : ℚ) (data : Spectrum1D) (kind : String)
    (continuum_order : Option ℤ) (continuum_regions : List (ℚ × ℚ))
    (surrounding : ℚ) : Except FitProfileError Unit :=
  match data.disp.head?, data.disp.getLast? with
  | some d0, some dN =>
    if ¬ (dN > wavelength ∧ wavelength > d0) then .error .outOfBounds
    else
      let k := kind.toLower
      if ¬ (k = "gaussian" ∨ k = "voigt" ∨ k = "lorentzian") then .error .unknownKind
      else if k = "voigt" ∨ k = "lorentzian" then .error .notImplementedKind
      else if (match continuum_order with
               | some n => decide (n < 0)
               | none => false) then .error .badContinuumOrder
      else if (match continuum_regions.head? with
               | some r => !(overlap r.1 r.2 d0 dN)
               | none => false) then .error .continuumRegionsNoOverlap
      else if surrounding < 0 then .error .badSurrounding
      else .ok ()
  | _, _ => .error .indexError

/-- Embedded from the `ProfileFitter.fit` bounds check
(solvers/profiles.py lines 70-74): the dispersion array restricted to the
finite-flux pixels must strictly bracket the requested wavelength. -/
def profile_fitter_bounds_check (disp : List ℚ) (flux : List (Option ℚ))
    (wavelength : ℚ) : Except FitProfileError Unit :=
  let finite_disp := (disp.zip flux).filterMap
    (fun p => if p.2.isSome then some p.1 else none)
  match finite_disp.head?, finite_disp.getLast? with
  | some a, some b =>
    if ¬ (b > wavelength ∧ wavelength > a) then .error .outOfBounds else .ok ()
  | _, _ => .error .indexError

/-! ## The free-parameter vector (transitions.py lines 272-295) -/

/-- Embedded from the `profile_parameters` dictionary
(transitions.py lines 274-278). -/
def profile_parameters (kind : String) : List String :=
  if kind = "gaussian" then ["fwhm"]
  else if kind = "lorentzian" then ["scale"]
  else if kind = "voigt" then ["fwhm", "shape"]
  else []

/-- Embedded from the parameter-list assembly (transitions.py lines 272-295):
`line_depth`, the profile parameters for `kind`, `wavelength` only when the
user constrains it, the `continuum.i` coefficients only when a continuum
order is given AND the transition declares no continuum regions
(`2 > continuum_regions.size`), and `blending_fwhm` only when blending
transitions exist. -/
def fit_parameters (kind : String)
    (constrain_parameters : List (String × Option ℚ × Option ℚ))
    (continuum_order : Option ℕ) (continuum_regions : List (ℚ × ℚ))
    (has_blending : Bool) : List String :=
  ["line_depth"] ++ profile_parameters kind
    ++ (if (constrain_parameters.map Prod.fst).contains "wavelength"
        then ["wavelength"] else [])
    ++ (match continuum_order with
        | some n =>
          if 2 > 2 * continuum_regions.length then
            (List.range (n + 1)).map (fun i => "continuum." ++ toString i)
          else []
        | none => [])
    ++ (if has_blending then ["blending_fwhm"] else [])

/-! ## Continuum and numeric helpers -/

/-- Embedded from `numpy.polyval` (Horner's rule, coefficients ordered from
the highest degree down), as used on lines 422, 495, 530 and 566-569. -/
def polyval (coefficients : List ℚ) (x : ℚ) : ℚ :=
  coefficients.foldl (fun acc c => acc * x + c) 0

/-- Embedded from transitions.py lines 356-358: with `continuum_order=None`
the continuum coefficient list is the constant `[1]` in every round. -/
def continuum_coefficients_no_order : List ℚ := [1]

/-- Embedded from `fixed_continuum = np.polyval(coefficients, data.disp)`
(transitions.py line 530). -/
def fixed_continuum (coefficients : List ℚ) (disp : List ℚ) : List ℚ :=
  disp.map (polyval coefficients)

/-- Embedded from `numpy.clip` on a scalar. -/
def clip (v lo hi : ℚ) : ℚ :=
  if v < lo then lo else if v > hi then hi else v

/-- Embedded from `numpy.searchsorted(disp, v)` with the default side=left,
for a sorted dispersion array: the number of entries strictly below `v`. -/
def searchsorted (disp : List ℚ) (v : ℚ) : ℕ :=
  disp.countP (fun a => decide (a < v))

/-- Python float comparison `a > b` where either side may be non-finite
(`none`): any comparison against NaN is False. -/
def numGt (a b : Option ℚ) : Bool :=
  match a, b with
  | some x, some y => decide (x > y)
  | _, _ => false

/-! ## The 3-round continuum and seeding refinement loop
(transitions.py lines 350-523) -/

/-- The evolving seed state of the refinement loop: the current `theta`
entries for `line_depth` and `fwhm`. The outer `Option` is presence in the
`theta` dictionary; the inner `Option ℚ` is a Python float (`none` = NaN). -/
structure RefineState where
  line_depth : Option (Option ℚ)
  fwhm : Option (Option ℚ)
  deriving DecidableEq

/-- First dispersion point right of the line centre whose flux exceeds the
half-depth level: `data.disp[index:][data.flux[index:] > mid_flux][0]`
(transitions.py lines 441-443). -/
def first_above (disp : List ℚ) (flux : List (Option ℚ)) (mid : Option ℚ) :
    Option ℚ :=
  (((disp.zip flux).filter (fun p => numGt p.2 mid)).head?).map Prod.fst

/-- Last dispersion point left of the line centre whose flux exceeds the
half-depth level: `data.disp[:index][data.flux[:index] > mid_flux][-1]`
(transitions.py lines 445-447). -/
def last_above (disp : List ℚ) (flux : List (Option ℚ)) (mid : Option ℚ) :
    Option ℚ :=
  (((disp.zip flux).filter (fun p => numGt p.2 mid)).getLast?).map Prod.fst

/-- Embedded from one round of the `for kk in range(3)` refinement loop
(transitions.py lines 353-523), for the configuration: `continuum_order=None`,
no blending transitions, and neither `line_depth` nor `fwhm` supplied in
`initial_theta` (so both are re-estimated every round, lines 420-470).
With `continuum_order=None` the coefficients are `[1]` (lines 356-358) and
`iterate_on_continuum` stays False, so the outlier-masking block
(lines 472-523) is skipped. The round raises exactly where the source does:
IndexError on an out-of-range `data.flux[index]`, and
ValueError "cannot estimate initial fwhm" (line 452) when neither side of
the profile crosses the half-depth level. When only one side crosses, the
FWHM is taken from that side doubled (lines 457-463, the first finite entry
of the two-element array). -/
def refine_round (data : Spectrum1D) (wavelength : ℚ) (_s : RefineState) :
    Except PyExn RefineState :=
  let c := polyval continuum_coefficients_no_order wavelength
  let index := searchsorted data.disp wavelength
  match data.flux.get? index with
  | none => .error .indexError
  | some flux_at_index =>
    let line_depth : Option ℚ :=
      (flux_at_index.map (fun f => 1 - f / c)).map
        (fun v => clip v (1/1000) (1 - 1/1000))
    let mid_flux : Option ℚ := line_depth.map (fun l => c * (1 - l / 2))
    let pos := first_above (data.disp.drop index) (data.flux.drop index) mid_flux
    let neg := last_above (data.disp.take index) (data.flux.take index) mid_flux
    match pos, neg with
    | none, none => .error .valueError
    | some p, some n => .ok ⟨some line_depth, some (some (p - n))⟩
    | some p, none => .ok ⟨some line_depth, some (some (2 * (p - wavelength)))⟩
    | none, some n => .ok ⟨some line_depth, some (some (2 * (wavelength - n)))⟩

/-- The `for kk in range(n)` loop over `refine_round`, together with the
number of completed rounds; an exception in a round aborts the loop. -/
def refine_iter (data : Spectrum1D) (wavelength : ℚ) :
    ℕ → RefineState → ℕ × Except PyExn RefineState
  | 0, s => (0, .ok s)
  | n + 1, s =>
    match refine_round data wavelength s with
    | .error e => (0, .error e)
    | .ok s1 =>
      let r := refine_iter data wavelength n s1
      (r.1 + 1, r.2)

/-- The refinement stage is exactly `for kk in range(3)`
(transitions.py line 353): three rounds, no convergence test. -/
def refine_stage (data : Spectrum1D) (wavelength : ℚ) (s : RefineState) :
    ℕ × Except PyExn RefineState :=
  refine_iter data wavelength 3 s

/-! ## The chi-square objective (transitions.py lines 528-601) -/

/-- Modelled from the spec: `oracle.models.profiles.gaussian` is imported by
transitions.py (line 17) but `oracle/models/profiles.py` is not among the
repository's files; only its caller is. Section 4.2 of the spec describes the
profile library as pure shapes with an `evaluate(center, width, x)` evaluator,
and `fit_profile` passes `fwhm/2.355` for the width, i.e. a Gaussian sigma;
modelled as the unit-peak Gaussian in that sigma. None of the claims proved
below depends on the exact shape. -/
noncomputable def profiles_gaussian (center sigma x : ℝ) : ℝ :=
  Real.exp (-((x - center) ^ 2) / (2 * sigma ^ 2))

/-- The blending-spectrum seam. The synthesised spectrum's arrays are data;
the smooth-and-resample step (`scipy.ndimage.gaussian_filter` at
`sigma = fwhm/2.355` grid units followed by `np.interp` onto the data grid,
transitions.py lines 548-556) is an external-library operation and is
supplied as a function of the blending FWHM, returning one flux value per
data pixel. -/
structure BlendingSeam where
  disp : List ℚ
  flux : List ℚ
  smooth_resampled : ℚ → List ℝ

/-- Dictionary lookup `xd[k]` on the parameter dictionary
`xd = dict(zip(parameters, x))` (line 533). -/
def lookupQ (xd : List (String × ℚ)) (k : String) : Option ℚ :=
  (xd.find? (fun p => p.1 = k)).map Prod.snd

/-- Embedded from the user-constraint loop (transitions.py lines 541-546):
`.error` models the KeyError of `xd[parameter]` for a constrained name that
is not a model parameter; `.ok true` means some bound is violated. -/
def constraints_violated (xd : List (String × ℚ))
    (constrain_parameters : List (String × Option ℚ × Option ℚ)) :
    Except PyExn Bool :=
  match constrain_parameters with
  | [] => .ok false
  | (name, lower, upper) :: rest =>
    match lookupQ xd name with
    | none => .error .keyError
    | some v =>
      if (match lower with | some lo => decide (lo > v) | none => false)
         || (match upper with | some hi => decide (hi < v) | none => false)
      then .ok true
      else constraints_violated xd rest

/-- Embedded from the physical-constraint guard (transitions.py lines 536-537):
`0 > xd["fwhm"] or not (1 > xd["line_depth"] > 0) or 0 > xd.get("blending_fwhm", 1)`. -/
def physically_invalid (fwhm line_depth : ℚ) (blending_fwhm_or_default : ℚ) :
    Bool :=
  decide (0 > fwhm)
    || !(decide ((1:ℚ) > line_depth) && decide (line_depth > 0))
    || decide (0 > blending_fwhm_or_default)

/-- Embedded from the blending-flux computation inside `chi_sq`
(transitions.py lines 548-558): with a blending spectrum, smooth and resample
it for the current `xd["blending_fwhm"]` (KeyError when that parameter is
absent); without one, `np.ones(data.disp.size)`. -/
def chi_sq_blending_flux (xd : List (String × ℚ)) (data : Spectrum1D)
    (blending_spectrum : Option BlendingSeam) : Except PyExn (List ℝ) :=
  match blending_spectrum with
  | some b =>
    match lookupQ xd "blending_fwhm" with
    | some bf => .ok (b.smooth_resampled bf)
    | none => .error .keyError
  | none => .ok (data.disp.map (fun _ => (1:ℝ)))

/-- Embedded from the continuum selection inside `chi_sq`
(transitions.py lines 566-569): the pre-computed `fixed_continuum` when
`continuum.0` is not a free parameter, otherwise the polynomial of the
current `continuum.i` values (KeyError when one is absent; TypeError models
`range(None + 1)`). -/
def chi_sq_continuum (xd : List (String × ℚ)) (coefficients : List ℚ)
    (continuum_order : Option ℕ) (disp : List ℚ) : Except PyExn (List ℚ) :=
  if (lookupQ xd "continuum.0").isSome then
    match continuum_order with
    | none => .error .typeError
    | some n =>
      match (List.range (n + 1)).mapM
          (fun i => lookupQ xd ("continuum." ++ toString i)) with
      | some cs => .ok (disp.map (polyval cs))
      | none => .error .keyError
  else .ok (fixed_continuum coefficients disp)

/-- The absorption factor `1 - line_depth * profiles.gaussian(center,
fwhm/2.355, x)` (transitions.py lines 561-564). -/
noncomputable def absorption_profile (line_depth center fwhm x : ℚ) : ℝ :=
  1 - (line_depth : ℝ) *
    profiles_gaussian (center : ℝ) ((fwhm : ℝ) / 2.355) (x : ℝ)

/-- The forward model, one value per pixel:
`model = blending_spectrum_flux * absorption_profile * continuum`
(transitions.py line 572). -/
noncomputable def chi_sq_model (blending_flux : List ℝ)
    (line_depth center fwhm : ℚ) (disp : List ℚ) (continuum : List ℚ) :
    List ℝ :=
  (blending_flux.zip (disp.zip continuum)).map
    (fun p => p.1 * absorption_profile line_depth center fwhm p.2.1 * (p.2.2 : ℝ))

/-- The per-pixel chi-square summands
`chi_sqs = (model - data.flux)**2 * data.ivariance` (line 575): `none` where
the flux or the inverse variance is non-finite, in which case numpy's
`isfinite` filter (line 577) drops the summand. -/
noncomputable def chi_sq_terms (model : List ℝ) (flux ivariance : List (Option ℚ)) :
    List (Option ℝ) :=
  (model.zip (flux.zip ivariance)).map
    (fun p => match p.2.1, p.2.2 with
      | some f, some iv => some ((p.1 - (f:ℝ)) ^ 2 * (iv:ℝ))
      | _, _ => none)

/-- The scalar objective value: `chi_sqs[finite].sum()` (lines 577-581). -/
noncomputable def chi_square_sum (model : List ℝ) (flux ivariance : List (Option ℚ)) :
    ℝ :=
  (chi_sq_terms model flux ivariance).foldl
    (fun acc o => match o with | some v => acc + v | none => acc) 0

/-- The number of finite summands, `finite.sum()` (line 584). -/
def finite_term_count (flux ivariance : List (Option ℚ)) : ℕ :=
  ((flux.zip ivariance).filter (fun p => p.1.isSome && p.2.isSome)).length

/-- Embedded from `chi_sq` (transitions.py lines 531-601) on its default
path (`full_output=False`, `return_scalar=True`) -- the objective handed to
`op.fmin` (line 633). The result is `.ok none` for the non-finite sentinel
`invalid_return = np.nan` (lines 528 and 536-546), `.error` where the Python
raises, and `.ok (some v)` otherwise. -/
noncomputable def chi_sq (parameters : List String) (x : List ℚ)
    (constrain_parameters : List (String × Option ℚ × Option ℚ))
    (data : Spectrum1D) (nominal_wavelength : ℚ) (coefficients : List ℚ)
    (continuum_order : Option ℕ) (blending_spectrum : Option BlendingSeam) :
    Except PyExn (Option ℝ) :=
  let xd := parameters.zip x
  match lookupQ xd "fwhm", lookupQ xd "line_depth" with
  | some fwhm, some line_depth =>
    if physically_invalid fwhm line_depth ((lookupQ xd "blending_fwhm").getD 1)
    then .ok none
    else
      match constraints_violated xd constrain_parameters with
      | .error e => .error e
      | .ok true => .ok none
      | .ok false =>
        match chi_sq_blending_flux xd data blending_spectrum with
        | .error e => .error e
        | .ok blending_flux =>
          match chi_sq_continuum xd coefficients continuum_order data.disp with
          | .error e => .error e
          | .ok continuum =>
            let center := (lookupQ xd "wavelength").getD nominal_wavelength
            .ok (some (chi_square_sum
              (chi_sq_model blending_flux line_depth center fwhm data.disp
                continuum)
              data.flux data.ivariance))
  | _, _ => .error .keyError

/-! ## The post-optimisation stage (transitions.py lines 603-686) -/

/-- The diagnostic spectra of the `full_output` branch
(transitions.py lines 585-599). -/
structure ReturnSpectra where
  data_spectrum : Spectrum1D
  continuum_spectrum : List ℚ × List ℚ
  blending_spectrum_unsmoothed : List ℚ × List ℚ
  blending_spectrum_smoothed : List ℚ × List ℝ
  fitted_spectrum : List ℚ × List ℝ

/-- Embedded from `chi_sq` with `full_output=True` (transitions.py lines
531-600), the call made on the optimum (line 638) and on the seed (line 612).
A guard rejection returns `invalid_full_output_return = (nan, nan, None)`
(lines 529 and 538-539), i.e. `.ok (none, none, none)`. On the main path the
reduced chi-square divides by `finite.sum() - len(xd) - 1` (line 584; a zero
denominator yields a non-finite numpy quotient, `none` here), and the
diagnostic spectra are assembled on lines 585-599 -- accessing
`blending_spectrum.disp` (line 589), which raises an AttributeError when
there is no blending spectrum (`None`). -/
noncomputable def chi_sq_full (parameters : List String) (x : List ℚ)
    (constrain_parameters : List (String × Option ℚ × Option ℚ))
    (data : Spectrum1D) (nominal_wavelength : ℚ) (coefficients : List ℚ)
    (continuum_order : Option ℕ) (blending_spectrum : Option BlendingSeam) :
    Except PyExn (Option ℝ × Option ℝ × Option ReturnSpectra) :=
  let xd := parameters.zip x
  match lookupQ xd "fwhm", lookupQ xd "line_depth" with
  | some fwhm, some line_depth =>
    if physically_invalid fwhm line_depth ((lookupQ xd "blending_fwhm").getD 1)
    then .ok (none, none, none)
    else
      match constraints_violated xd constrain_parameters with
      | .error e => .error e
      | .ok true => .ok (none, none, none)
      | .ok false =>
        match chi_sq_blending_flux xd data blending_spectrum with
        | .error e => .error e
        | .ok blending_flux =>
          match chi_sq_continuum xd coefficients continuum_order data.disp with
          | .error e => .error e
          | .ok continuum =>
            let center := (lookupQ xd "wavelength").getD nominal_wavelength
            let model := chi_sq_model blending_flux line_depth center fwhm
              data.disp continuum
            let chi := chi_square_sum model data.flux data.ivariance
            let denom : ℚ :=
              (finite_term_count data.flux data.ivariance : ℚ)
                - ((xd.map Prod.fst).dedup.length : ℚ) - 1
            let r_chi : Option ℝ :=
              if denom = 0 then none else some (chi / (denom : ℝ))
            match blending_spectrum with
            | none => .error .attributeError
            | some b =>
              let cs_for_blending : List ℚ :=
                if (lookupQ xd "continuum.0").isSome then
                  (match continuum_order with
                   | some n =>
                     ((List.range (n + 1)).mapM
                       (fun i => lookupQ xd ("continuum." ++ toString i))).getD
                       coefficients
                   | none => coefficients)
                else coefficients
              let blending_continuum := b.disp.map (polyval cs_for_blending)
              .ok (some chi, r_chi, some
                { data_spectrum := data
                  continuum_spectrum := (data.disp, continuum)
                  blending_spectrum_unsmoothed :=
                    (b.disp, (blending_continuum.zip b.flux).map
                      (fun p => p.1 * p.2))
                  blending_spectrum_smoothed :=
                    (data.disp, (continuum.zip blending_flux).map
                      (fun p => (p.1 : ℝ) * p.2))
                  fitted_spectrum := (data.disp, model) })
  | _, _ => .error .keyError

/-- The tuple `op.fmin(...)` returns with `full_output=True`
(transitions.py lines 633-634): best iterate, best objective value, iteration
count, function-call count, and the convergence warnflag (0 = converged,
1 = maximum function evaluations, 2 = maximum iterations). -/
structure FminOutput where
  p1 : List ℚ
  fopt : ℚ
  num_iter : ℕ
  num_funcalls : ℕ
  warnflag : ℕ

/-- The `op_info` diagnostics assembled on transitions.py lines 649-659,
together with the fitted parameter dictionary's companion data. -/
structure ProfileFitInfo where
  chi_sq_value : Option ℝ
  r_chi_sq : Option ℝ
  fopt : ℚ
  num_iter : ℕ
  num_funcalls : ℕ
  warnflag : ℕ
  profile_kind : String
  equivalent_width : ℚ
  spectra : Option ReturnSpectra

/-- Embedded from `profile_integrals["gaussian"]` (transitions.py line 643):
`x["line_depth"] * abs(x["fwhm"]) * 0.752634332`. -/
def profile_integral_gaussian (line_depth fwhm : ℚ) : ℚ :=
  line_depth * |fwhm| * (752634332 / 1000000000)

/-- Embedded from the post-optimisation stage of `fit_profile`
(transitions.py lines 633-676): zip the optimizer's best iterate `p1` with
the parameter names (line 637), re-evaluate the objective with full output
(line 638), compute the equivalent width in milli-Angstroms from the optimal
parameters (lines 639-647), and assemble `op_info` -- which carries the
optimizer's `warnflag` (line 655). No branch examines `warnflag`: the code
after `op.fmin` never raises because of non-convergence. (The sanity block
on lines 663-670 only emits a debug log -- numpy float division by zero does
not raise -- and is not modelled.) -/
noncomputable def fit_profile_finalise (parameters : List String)
    (constrain_parameters : List (String × Option ℚ × Option ℚ))
    (data : Spectrum1D) (nominal_wavelength : ℚ) (coefficients : List ℚ)
    (continuum_order : Option ℕ) (blending_spectrum : Option BlendingSeam)
    (kind : String) (fm : FminOutput) :
    Except PyExn (List (String × ℚ) × ProfileFitInfo) :=
  let optimal_theta := parameters.zip fm.p1
  match chi_sq_full parameters fm.p1 constrain_parameters data
      nominal_wavelength coefficients continuum_order blending_spectrum with
  | .error e => .error e
  | .ok (oc, orc, spectra) =>
    if kind = "gaussian" then
      match lookupQ optimal_theta "line_depth", lookupQ optimal_theta "fwhm" with
      | some ld, some f =>
        .ok (optimal_theta,
          { chi_sq_value := oc
            r_chi_sq := orc
            fopt := fm.fopt
            num_iter := fm.num_iter
            num_funcalls := fm.num_funcalls
            warnflag := fm.warnflag
            profile_kind := kind
            equivalent_width := 1000 * profile_integral_gaussian ld f
            spectra := spectra })
      | _, _ => .error .keyError
    else .error .keyError

/-! ## Claim theorems -/

/-- C2: the claim says that parsing the string form and the equivalent packed
numeric code of every valid species specifier produce identical
(element, atomic_number, ionisation_level) tuples -- in particular "Fe",
"Fe I", "Fe II", "Ca" against 26.0, 26.1, 20.0. On the code this FAILS for
the specifiers containing an ionisation token: `_parse_species` passes the
whole string "Fe I" to `utils.atomic_number`, which finds no such symbol and
returns (does not raise) a ValueError object, upon which `utils.element`
raises a TypeError. The numeric codes and the bare symbols "Fe", "Ca" do
parse, and agree with each other and with the spec's rounding decode. -/
theorem claim_C2_species_string_vs_numeric :
    parse_species_string "Fe I" = Except.error PyExn.typeError ∧
    parse_species_string "Fe II" = Except.error PyExn.typeError ∧
    parse_species_string "Fe" = Except.ok ("Fe", 26, 1, 261/10) ∧
    parse_species_string "Ca" = Except.ok ("Ca", 20, 1, 201/10) ∧
    parse_species_float 26 = Except.ok ("Fe", 26, 1, 26) ∧
    parse_species_float (261/10) = Except.ok ("Fe", 26, 2, 261/10) ∧
    parse_species_float 20 = Except.ok ("Ca", 20, 1, 20) ∧
    spec_ionisation_of_code 26 = 1 ∧
    spec_ionisation_of_code (261/10) = 2 ∧
    spec_ionisation_of_code 20 = 1 := by
  refine ⟨?_, ?_, ?_, ?_, ?_, ?_, ?_, ?_, ?_, ?_⟩ <;>
    exact of_decide_eq_true (by with_unfolding_all rfl)

/-- C6: the claim says an unknown element symbol makes species parsing fail
with an UnknownElement error raised to the caller. The lookup is indeed
case-sensitive and parsing does fail, but `utils.atomic_number` line 515
reads `return ValueError(...)` instead of `raise`, so the caller never sees
that ValueError: `_parse_species` passes the exception object to
`utils.element`, whose `int()` raises a TypeError instead. -/
theorem claim_C6_unknown_element_behaviour :
    atomic_number "Xx" = AtomicNumberResult.valueErrorObject ∧
    atomic_number "fe" = AtomicNumberResult.valueErrorObject ∧
    parse_species_string "Xx" = Except.error PyExn.typeError ∧
    parse_species_string "Xx" ≠ Except.error PyExn.valueError := by
  refine ⟨?_, ?_, ?_, ?_⟩ <;> exact of_decide_eq_true (by with_unfolding_all rfl)

/-- C5: the claim says that when no declared continuum region overlaps the
observed window `[disp[0], disp[-1]]` the call fails before fitting. On the
code it does not: with the single region [1, 2] and the window [5, 6] --
no genuine overlap -- validation passes, because `utils.overlap` tests
`end_b >= start_b and end_b >= start_a`, which never consults the region's
end. Conversely, with regions [[7, 8], [5.2, 5.8]] the second region
genuinely overlaps the window, yet the call is rejected: the unconditional
`break` in the loop (line 246) means only the first region is ever tested. -/
theorem claim_C5_continuum_overlap_not_enforced :
    spec_interval_overlap 1 2 5 6 = false ∧
    overlap 1 2 5 6 = true ∧
    fit_profile_validate (11/2)
      ⟨[5, 11/2, 6], [some 1, some 1, some 1], [some 1, some 1, some 1]⟩
      "gaussian" (some 0) [(1, 2)] 2 = Except.ok () ∧
    spec_interval_overlap (26/5) (29/5) 5 6 = true ∧
    fit_profile_validate (11/2)
      ⟨[5, 11/2, 6], [some 1, some 1, some 1], [some 1, some 1, some 1]⟩
      "gaussian" (some 0) [(7, 8), (26/5, 29/5)] 2 =
      Except.error FitProfileError.continuumRegionsNoOverlap := by
  refine ⟨?_, ?_, ?_, ?_, ?_⟩ <;> exact of_decide_eq_true (by with_unfolding_all rfl)

/-- C7: a transition wavelength that does not lie strictly inside the
dispersion bounds makes the fit fail with the out-of-bounds error -- in
`fit_profile` (raw bounds, line 216) and in `ProfileFitter.fit` (finite-flux
bounds, lines 70-74); conversely `fit_profile` validation succeeds only when
the wavelength is strictly inside, so the wavelength is never clamped and no
fitted result is produced. -/
theorem claim_C7_wavelength_out_of_bounds :
    (∀ (wavelength d0 dN : ℚ) (data : Spectrum1D) (kind : String)
        (continuum_order : Option ℤ) (continuum_regions : List (ℚ × ℚ))
        (surrounding : ℚ),
        data.disp.head? = some d0 → data.disp.getLast? = some dN →
        ¬ (dN > wavelength ∧ wavelength > d0) →
        fit_profile_validate wavelength data kind continuum_order
          continuum_regions surrounding =
          Except.error FitProfileError.outOfBounds) ∧
    (∀ (disp : List ℚ) (flux : List (Option ℚ)) (wavelength a b : ℚ),
        ((disp.zip flux).filterMap
          (fun p => if p.2.isSome then some p.1 else none)).head? = some a →
        ((disp.zip flux).filterMap
          (fun p => if p.2.isSome then some p.1 else none)).getLast? = some b →
        ¬ (b > wavelength ∧ wavelength > a) →
        profile_fitter_bounds_check disp flux wavelength =
          Except.error FitProfileError.outOfBounds) ∧
    (∀ (wavelength : ℚ) (data : Spectrum1D) (kind : String)
        (continuum_order : Option ℤ) (continuum_regions : List (ℚ × ℚ))
        (surrounding : ℚ),
        fit_profile_validate wavelength data kind continuum_order
          continuum_regions surrounding = Except.ok () →
        ∃ d0 dN, data.disp.head? = some d0 ∧ data.disp.getLast? = some dN ∧
          dN > wavelength ∧ wavelength > d0) := by
  refine ⟨?_, ?_, ?_⟩
  · intro w d0 dN data kind co cr s h1 h2 h3
    simp only [fit_profile_validate, h1, h2]
    rw [if_pos h3]
  · intro disp flux w a b h1 h2 h3
    simp only [profile_fitter_bounds_check, h1, h2]
    rw [if_pos h3]
  · intro w data kind co cr s h
    unfold fit_profile_validate at h
    rcases hh : data.disp.head? with _ | d0 <;> rw [hh] at h
    · cases h
    · rcases hl : data.disp.getLast? with _ | dN <;> rw [hl] at h
      · cases h
      · dsimp only at h
        by_cases hb : ¬ (dN > w ∧ w > d0)
        · rw [if_pos hb] at h; cases h
        · rw [not_not] at hb
          exact ⟨d0, dN, rfl, rfl, hb⟩

/-- C7 witness: concrete out-of-bounds calls for both checks. -/
theorem claim_C7_wavelength_out_of_bounds_witness :
    fit_profile_validate 5 ⟨[1, 2, 3], [some 1, some 1, some 1], [some 1, some 1, some 1]⟩
      "gaussian" none [] 2 = Except.error FitProfileError.outOfBounds ∧
    profile_fitter_bounds_check [1, 2, 3] [none, some 1, some 1] 1 =
      Except.error FitProfileError.outOfBounds :=
  ⟨claim_C7_wavelength_out_of_bounds.1 5 1 3
      ⟨[1, 2, 3], [some 1, some 1, some 1], [some 1, some 1, some 1]⟩
      "gaussian" none [] 2 rfl rfl
      (of_decide_eq_true (by with_unfolding_all rfl)),
   claim_C7_wavelength_out_of_bounds.2.1 [1, 2, 3] [none, some 1, some 1] 1 2 3
      rfl rfl (of_decide_eq_true (by with_unfolding_all rfl))⟩

/-- C8: requesting kind "voigt" or "lorentzian" never reaches fitting -- the
validation sequence never returns successfully for those kinds -- and when
the data passes the preceding bounds check the error is precisely the
NotImplementedError of transitions.py lines 229-230, so there is no silent
fallback to a Gaussian profile. -/
theorem claim_C8_voigt_lorentzian_rejected :
    (∀ (wavelength : ℚ) (data : Spectrum1D) (kind : String)
        (continuum_order : Option ℤ) (continuum_regions : List (ℚ × ℚ))
        (surrounding : ℚ),
        (kind.toLower = "voigt" ∨ kind.toLower = "lorentzian") →
        fit_profile_validate wavelength data kind continuum_order
          continuum_regions surrounding ≠ Except.ok ()) ∧
    (∀ (wavelength d0 dN : ℚ) (data : Spectrum1D) (kind : String)
        (continuum_order : Option ℤ) (continuum_regions : List (ℚ × ℚ))
        (surrounding : ℚ),
        data.disp.head? = some d0 → data.disp.getLast? = some dN →
        dN > wavelength → wavelength > d0 →
        (kind.toLower = "voigt" ∨ kind.toLower = "lorentzian") →
        fit_profile_validate wavelength data kind continuum_order
          continuum_regions surrounding =
          Except.error FitProfileError.notImplementedKind) := by
  have main : ∀ (wavelength d0 dN : ℚ) (data : Spectrum1D) (kind : String)
      (continuum_order : Option ℤ) (continuum_regions : List (ℚ × ℚ))
      (surrounding : ℚ),
      data.disp.head? = some d0 → data.disp.getLast? = some dN →
      dN > wavelength → wavelength > d0 →
      (kind.toLower = "voigt" ∨ kind.toLower = "lorentzian") →
      fit_profile_validate wavelength data kind continuum_order
        continuum_regions surrounding =
        Except.error FitProfileError.notImplementedKind := by
    intro w d0 dN data kind co cr s h1 h2 h3 h4 hk
    simp only [fit_profile_validate, h1, h2]
    rw [if_neg (not_not_intro ⟨h3, h4⟩)]
    have hmem : kind.toLower = "gaussian" ∨ kind.toLower = "voigt" ∨
        kind.toLower = "lorentzian" := Or.inr hk
    rw [if_neg (not_not_intro hmem), if_pos hk]
  refine ⟨?_, main⟩
  intro w data kind co cr s hk h
  rcases hh : data.disp.head? with _ | d0
  · unfold fit_profile_validate at h
    rcases hl : data.disp.getLast? with _ | dN <;> rw [hh, hl] at h <;> cases h
  · rcases hl : data.disp.getLast? with _ | dN
    · unfold fit_profile_validate at h
      rw [hh, hl] at h
      cases h
    · by_cases hb : dN > w ∧ w > d0
      · rw [main w d0 dN data kind co cr s hh hl hb.1 hb.2 hk] at h
        cases h
      · unfold fit_profile_validate at h
        rw [hh, hl] at h
        dsimp only at h
        rw [if_pos hb] at h
        cases h

/-- C8 witness: a mixed-case "Voigt" request on in-bounds data fails with the
not-implemented error. -/
theorem claim_C8_voigt_lorentzian_rejected_witness :
    fit_profile_validate 2 ⟨[1, 2, 3], [some 1, some 1, some 1], [some 1, some 1, some 1]⟩
      "Voigt" none [] 2 = Except.error FitProfileError.notImplementedKind :=
  claim_C8_voigt_lorentzian_rejected.2 2 1 3
    ⟨[1, 2, 3], [some 1, some 1, some 1], [some 1, some 1, some 1]⟩
    "Voigt" none [] 2 rfl rfl
    (of_decide_eq_true (by with_unfolding_all rfl))
    (of_decide_eq_true (by with_unfolding_all rfl))
    (Or.inl (of_decide_eq_true (by with_unfolding_all rfl)))

/-- C10: with `continuum_order=None` no `continuum.i` name enters the
parameter vector, the per-round coefficient list is the constant `[1]`, and
the continuum factor `np.polyval([1], x)` of the forward model is identically
one at every pixel of every objective evaluation. -/
theorem claim_C10_no_continuum_treatment :
    (∀ (kind : String) (cp : List (String × Option ℚ × Option ℚ))
        (cr : List (ℚ × ℚ)) (hb : Bool) (p : String),
        p ∈ fit_parameters kind cp none cr hb → ¬ p.startsWith "continuum.") ∧
    continuum_coefficients_no_order = [1] ∧
    (∀ x : ℚ, polyval continuum_coefficients_no_order x = 1) ∧
    (∀ disp : List ℚ, fixed_continuum continuum_coefficients_no_order disp =
      disp.map (fun _ => 1)) := by
  have hpoly : ∀ x : ℚ, polyval continuum_coefficients_no_order x = 1 := by
    intro x
    simp [polyval, continuum_coefficients_no_order]
  refine ⟨?_, rfl, hpoly, ?_⟩
  · intro kind cp cr hb p hp
    have hsub : p ∈ ["line_depth", "fwhm", "scale", "shape", "wavelength",
        "blending_fwhm"] := by
      unfold fit_parameters profile_parameters at hp
      split_ifs at hp <;> simp_all <;> tauto
    fin_cases hsub <;> exact of_decide_eq_true (by with_unfolding_all rfl)
  · intro disp
    unfold fixed_continuum
    exact List.map_congr_left (fun a _ => hpoly a)

/-- C10 witness: concrete instances of the three facts. -/
theorem claim_C10_no_continuum_treatment_witness :
    (¬ "fwhm".startsWith "continuum.") ∧
    polyval continuum_coefficients_no_order 5 = 1 ∧
    fixed_continuum continuum_coefficients_no_order [2, 3] =
      [2, 3].map (fun _ => 1) :=
  ⟨claim_C10_no_continuum_treatment.1 "gaussian" [] [] false "fwhm"
      (of_decide_eq_true (by with_unfolding_all rfl)),
   claim_C10_no_continuum_treatment.2.2.1 5,
   claim_C10_no_continuum_treatment.2.2.2 [2, 3]⟩

theorem refine_iter_count_le (data : Spectrum1D) (w : ℚ) :
    ∀ (n : ℕ) (s : RefineState), (refine_iter data w n s).1 ≤ n := by
  intro n
  induction n with
  | zero => intro s; simp [refine_iter]
  | succ k ih =>
    intro s
    unfold refine_iter
    cases refine_round data w s with
    | error e => simp
    | ok s1 => simpa using ih s1

theorem refine_iter_ok_count (data : Spectrum1D) (w : ℚ) :
    ∀ (n : ℕ) (s s' : RefineState),
      (refine_iter data w n s).2 = Except.ok s' →
      (refine_iter data w n s).1 = n := by
  intro n
  induction n with
  | zero => intro s s' _; rfl
  | succ k ih =>
    intro s s' h
    unfold refine_iter at h ⊢
    cases hr : refine_round data w s with
    | error e =>
      rw [hr] at h
      dsimp only at h
      cases h
    | ok s1 =>
      rw [hr] at h
      dsimp only at h ⊢
      rw [ih s1 s' h]

/-- C4: the claim says the refinement loop executes exactly 3 rounds and
terminates unconditionally. What holds on the code: the loop header is the
fixed `range(3)` with no convergence test -- it can never run more than 3
rounds, and whenever it terminates normally it has run exactly 3 -- but a
round can abort the loop early by raising (the in-loop FWHM re-seeding raises
ValueError "cannot estimate initial fwhm", transitions.py line 452, shown by
the counterexample). -/
theorem claim_C4_refinement_round_count :
    (∀ (data : Spectrum1D) (wavelength : ℚ) (s s' : RefineState),
        (refine_stage data wavelength s).2 = Except.ok s' →
        (refine_stage data wavelength s).1 = 3) ∧
    (∀ (data : Spectrum1D) (wavelength : ℚ) (s : RefineState),
        (refine_stage data wavelength s).1 ≤ 3) :=
  ⟨fun d w s s' h => refine_iter_ok_count d w 3 s s' h,
   fun d w s => refine_iter_count_le d w 3 s⟩

/-- C4 witness: on a well-formed absorption profile the loop completes and
its round count is exactly 3. -/
theorem claim_C4_refinement_round_count_witness :
    (refine_stage
      ⟨[1, 2, 3, 4, 5],
       [some 1, some (9/10), some (1/5), some (9/10), some 1],
       [some 1, some 1, some 1, some 1, some 1]⟩ 3 ⟨none, none⟩).1 = 3 :=
  claim_C4_refinement_round_count.1
    ⟨[1, 2, 3, 4, 5],
     [some 1, some (9/10), some (1/5), some (9/10), some 1],
     [some 1, some 1, some 1, some 1, some 1]⟩ 3 ⟨none, none⟩
    ⟨some (some (4/5)), some (some 2)⟩
    (of_decide_eq_true (by with_unfolding_all rfl))

/-- C4 counterexample: on constant flux 1/2 the FWHM re-seeding of the very
first round finds no half-depth crossing on either side and raises, so the
refinement loop ends after 0 completed rounds -- not 3. -/
theorem claim_C4_early_abort_counterexample :
    refine_stage
      ⟨[1, 2, 3, 4, 5],
       [some (1/2), some (1/2), some (1/2), some (1/2), some (1/2)],
       [some 1, some 1, some 1, some 1, some 1]⟩ 3 ⟨none, none⟩ =
      (0, Except.error PyExn.valueError) ∧
    (refine_stage
      ⟨[1, 2, 3, 4, 5],
       [some (1/2), some (1/2), some (1/2), some (1/2), some (1/2)],
       [some 1, some 1, some 1, some 1, some 1]⟩ 3 ⟨none, none⟩).1 ≠ 3 := by
  refine ⟨?_, ?_⟩ <;> exact of_decide_eq_true (by with_unfolding_all rfl)

/-- C3: the objective returns the non-finite sentinel (`.ok none`, the `np.nan`
of line 528) whenever `fwhm < 0`, `line_depth` is not strictly inside (0, 1),
or the blending FWHM (defaulting to 1 when absent) is negative; likewise when
a user constraint is violated; and otherwise it returns the chi-square sum
over the finite summands of `(model - flux)^2 * ivariance` with
`model = blending_flux * (1 - line_depth * profile(center, fwhm, x)) * continuum`. -/
theorem claim_C3_objective_structure :
    (∀ (parameters : List String) (x : List ℚ)
        (cp : List (String × Option ℚ × Option ℚ)) (data : Spectrum1D)
        (w : ℚ) (coefficients : List ℚ) (co : Option ℕ)
        (bs : Option BlendingSeam) (fwhm line_depth : ℚ),
        lookupQ (parameters.zip x) "fwhm" = some fwhm →
        lookupQ (parameters.zip x) "line_depth" = some line_depth →
        (fwhm < 0 ∨ ¬ (0 < line_depth ∧ line_depth < 1) ∨
          (lookupQ (parameters.zip x) "blending_fwhm").getD 1 < 0) →
        chi_sq parameters x cp data w coefficients co bs = Except.ok none) ∧
    (∀ (parameters : List String) (x : List ℚ)
        (cp : List (String × Option ℚ × Option ℚ)) (data : Spectrum1D)
        (w : ℚ) (coefficients : List ℚ) (co : Option ℕ)
        (bs : Option BlendingSeam) (fwhm line_depth : ℚ),
        lookupQ (parameters.zip x) "fwhm" = some fwhm →
        lookupQ (parameters.zip x) "line_depth" = some line_depth →
        physically_invalid fwhm line_depth
          ((lookupQ (parameters.zip x) "blending_fwhm").getD 1) = false →
        constraints_violated (parameters.zip x) cp = Except.ok true →
        chi_sq parameters x cp data w coefficients co bs = Except.ok none) ∧
    (∀ (parameters : List String) (x : List ℚ)
        (cp : List (String × Option ℚ × Option ℚ)) (data : Spectrum1D)
        (w : ℚ) (coefficients : List ℚ) (co : Option ℕ)
        (bs : Option BlendingSeam) (fwhm line_depth : ℚ)
        (blending_flux : List ℝ) (continuum : List ℚ),
        lookupQ (parameters.zip x) "fwhm" = some fwhm →
        lookupQ (parameters.zip x) "line_depth" = some line_depth →
        physically_invalid fwhm line_depth
          ((lookupQ (parameters.zip x) "blending_fwhm").getD 1) = false →
        constraints_violated (parameters.zip x) cp = Except.ok false →
        chi_sq_blending_flux (parameters.zip x) data bs = Except.ok blending_flux →
        chi_sq_continuum (parameters.zip x) coefficients co data.disp =
          Except.ok continuum →
        chi_sq parameters x cp data w coefficients co bs =
          Except.ok (some (chi_square_sum
            (chi_sq_model blending_flux line_depth
              ((lookupQ (parameters.zip x) "wavelength").getD w) fwhm
              data.disp continuum)
            data.flux data.ivariance))) := by
  refine ⟨?_, ?_, ?_⟩
  · intro parameters x cp data w coefficients co bs fwhm line_depth h1 h2 h3
    have hguard : physically_invalid fwhm line_depth
        ((lookupQ (parameters.zip x) "blending_fwhm").getD 1) = true := by
      simp only [physically_invalid, Bool.or_eq_true, decide_eq_true_eq,
        Bool.not_eq_true', Bool.and_eq_false_iff, decide_eq_false_iff_not,
        gt_iff_lt, not_lt]
      rcases h3 with h | h | h
      · exact Or.inl (Or.inl h)
      · rw [not_and_or, not_lt, not_lt] at h
        refine Or.inl (Or.inr ?_)
        rcases h with h | h
        · exact Or.inr h
        · exact Or.inl h
      · exact Or.inr h
    simp [chi_sq, h1, h2, hguard]
  · intro parameters x cp data w coefficients co bs fwhm line_depth h1 h2 hg hc
    simp [chi_sq, h1, h2, hg, hc]
  · intro parameters x cp data w coefficients co bs fwhm line_depth bf cont
      h1 h2 hg hc hb hcont
    simp [chi_sq, h1, h2, hg, hc, hb, hcont]

/-- C3 witness: the sentinel for a negative FWHM, the sentinel for a violated
user bound, and the chi-square sum on a valid vector, each at concrete
inputs (no blending, no free continuum). -/
theorem claim_C3_objective_structure_witness :
    chi_sq ["line_depth", "fwhm"] [1/2, -1] []
      ⟨[1, 2, 3], [some 1, some (1/2), some 1], [some 1, some 1, some 1]⟩
      3 [1] none none = Except.ok none ∧
    chi_sq ["line_depth", "fwhm"] [1/2, 1] [("fwhm", some 2, none)]
      ⟨[1, 2, 3], [some 1, some (1/2), some 1], [some 1, some 1, some 1]⟩
      3 [1] none none = Except.ok none ∧
    chi_sq ["line_depth", "fwhm"] [1/2, 1] []
      ⟨[1, 2, 3], [some 1, some (1/2), some 1], [some 1, some 1, some 1]⟩
      3 [1] none none =
      Except.ok (some (chi_square_sum
        (chi_sq_model [1, 1, 1] (1/2) 3 1 [1, 2, 3] [1, 1, 1])
        [some 1, some (1/2), some 1] [some 1, some 1, some 1])) :=
  ⟨claim_C3_objective_structure.1 ["line_depth", "fwhm"] [1/2, -1] []
      ⟨[1, 2, 3], [some 1, some (1/2), some 1], [some 1, some 1, some 1]⟩
      3 [1] none none (-1) (1/2)
      (by with_unfolding_all rfl) (by with_unfolding_all rfl)
      (Or.inl (of_decide_eq_true (by with_unfolding_all rfl))),
   claim_C3_objective_structure.2.1 ["line_depth", "fwhm"] [1/2, 1]
      [("fwhm", some 2, none)]
      ⟨[1, 2, 3], [some 1, some (1/2), some 1], [some 1, some 1, some 1]⟩
      3 [1] none none 1 (1/2)
      (by with_unfolding_all rfl) (by with_unfolding_all rfl)
      (by with_unfolding_all rfl) (by with_unfolding_all rfl),
   claim_C3_objective_structure.2.2 ["line_depth", "fwhm"] [1/2, 1] []
      ⟨[1, 2, 3], [some 1, some (1/2), some 1], [some 1, some 1, some 1]⟩
      3 [1] none none 1 (1/2) [1, 1, 1] [1, 1, 1]
      (by with_unfolding_all rfl) (by with_unfolding_all rfl)
      (by with_unfolding_all rfl) (by with_unfolding_all rfl)
      (by with_unfolding_all rfl) (by with_unfolding_all rfl)⟩

/-- C9: whatever convergence flag `op.fmin` reports, the post-optimisation
stage raises nothing on account of it: the best iterate `p1` is zipped with
the parameter names and returned as the optimal parameter vector, and the
flag itself is carried verbatim into the diagnostics (`op_info["warnflag"]`).
The hypotheses only require the objective's full-output re-evaluation at `p1`
to succeed -- which holds in every run that reached the optimizer, and is
independent of the flag. -/
theorem claim_C9_best_iterate_returned (parameters : List String)
    (cp : List (String × Option ℚ × Option ℚ)) (data : Spectrum1D) (w : ℚ)
    (coefficients : List ℚ) (co : Option ℕ) (bs : Option BlendingSeam)
    (fm : FminOutput) (out : Option ℝ × Option ℝ × Option ReturnSpectra)
    (ld f : ℚ)
    (h1 : chi_sq_full parameters fm.p1 cp data w coefficients co bs =
      Except.ok out)
    (h2 : lookupQ (parameters.zip fm.p1) "line_depth" = some ld)
    (h3 : lookupQ (parameters.zip fm.p1) "fwhm" = some f) :
    fit_profile_finalise parameters cp data w coefficients co bs "gaussian" fm =
      Except.ok (parameters.zip fm.p1,
        { chi_sq_value := out.1
          r_chi_sq := out.2.1
          fopt := fm.fopt
          num_iter := fm.num_iter
          num_funcalls := fm.num_funcalls
          warnflag := fm.warnflag
          profile_kind := "gaussian"
          equivalent_width := 1000 * profile_integral_gaussian ld f
          spectra := out.2.2 }) := by
  obtain ⟨oc, orc, sp⟩ := out
  simp [fit_profile_finalise, h1, h2, h3]

/-- C9 witness: a non-converged run (warnflag = 1) still returns the best
iterate and exposes the flag; the best iterate here violates the physical
guard, so the re-evaluation legitimately reports the NaN sentinel tuple. -/
theorem claim_C9_best_iterate_returned_witness :
    fit_profile_finalise ["line_depth", "fwhm"] []
      ⟨[1, 2, 3], [some 1, some (1/2), some 1], [some 1, some 1, some 1]⟩
      3 [1] none none "gaussian" ⟨[1/2, -1], 7, 11, 23, 1⟩ =
      Except.ok ([("line_depth", 1/2), ("fwhm", -1)],
        { chi_sq_value := none
          r_chi_sq := none
          fopt := 7
          num_iter := 11
          num_funcalls := 23
          warnflag := 1
          profile_kind := "gaussian"
          equivalent_width := 1000 * profile_integral_gaussian (1/2) (-1)
          spectra := none }) :=
  claim_C9_best_iterate_returned ["line_depth", "fwhm"] []
    ⟨[1, 2, 3], [some 1, some (1/2), some 1], [some 1, some 1, some 1]⟩
    3 [1] none none ⟨[1/2, -1], 7, 11, 23, 1⟩ (none, none, none) (1/2) (-1)
    (by with_unfolding_all rfl) (by with_unfolding_all rfl)
    (by with_unfolding_all rfl)

/-- C1 counterexample: the claim identifies the code's constant 0.752634332
with the Gaussian closed-form integral factor sqrt(pi / (4 ln 2)). At
line_depth = fwhm = 1 the profile integral is 0.752634332 < 1, while
sqrt(pi / (4 ln 2)) > 1 (it is about 1.0645), so the two differ. -/
theorem claim_C1_constant_not_sqrt_pi_over_4ln2 :
    profile_integral_gaussian 1 1 = 752634332 / 1000000000 ∧
    ((profile_integral_gaussian 1 1 : ℚ) : ℝ) < 1 ∧
    1 < Real.sqrt (Real.pi / (4 * Real.log 2)) ∧
    ((profile_integral_gaussian 1 1 : ℚ) : ℝ) ≠
      Real.sqrt (Real.pi / (4 * Real.log 2)) := by
  have hval : profile_integral_gaussian 1 1 = 752634332 / 1000000000 := by
    unfold profile_integral_gaussian
    norm_num
  have hlt1 : ((profile_integral_gaussian 1 1 : ℚ) : ℝ) < 1 := by
    rw [hval]
    norm_num
  have hlog_pos : 0 < Real.log 2 := Real.log_pos (by norm_num)
  have hlog_lt : Real.log 2 < 0.6931471808 := Real.log_two_lt_d9
  have hpi : 3 < Real.pi := Real.pi_gt_three
  have hgt1 : 1 < Real.pi / (4 * Real.log 2) := by
    rw [lt_div_iff₀ (by positivity)]
    nlinarith
  have hsq : 1 < Real.sqrt (Real.pi / (4 * Real.log 2)) := by
    have h0 : (0:ℝ) ≤ Real.pi / (4 * Real.log 2) := le_of_lt (by linarith)
    nlinarith [Real.sq_sqrt h0, Real.sqrt_nonneg (Real.pi / (4 * Real.log 2)),
      Real.sqrt_lt_sqrt (by norm_num : (0:ℝ) ≤ 1) hgt1, Real.sqrt_one]
  exact ⟨hval, hlt1, hsq, ne_of_lt (lt_trans hlt1 hsq)⟩

/-- C1, as amended: every diagnostics record produced by the
post-optimisation stage carries
`equivalent_width = 1000 * line_depth * |fwhm| * 0.752634332` (milli-
Angstroms) computed from the optimal parameter vector; and the constant
0.752634332 is sqrt(pi)/2.355 -- the closed-form integral of the unit-height
profile exp(-((x-mu)/sigma)^2) at sigma = fwhm/2.355, per the code's own
comment -- to within 1e-6, not sqrt(pi / (4 ln 2)). -/
theorem claim_C1_equivalent_width_formula :
    (∀ (parameters : List String)
        (cp : List (String × Option ℚ × Option ℚ)) (data : Spectrum1D)
        (w : ℚ) (coefficients : List ℚ) (co : Option ℕ)
        (bs : Option BlendingSeam) (fm : FminOutput)
        (theta : List (String × ℚ)) (info : ProfileFitInfo) (ld f : ℚ),
        lookupQ (parameters.zip fm.p1) "line_depth" = some ld →
        lookupQ (parameters.zip fm.p1) "fwhm" = some f →
        fit_profile_finalise parameters cp data w coefficients co bs
          "gaussian" fm = Except.ok (theta, info) →
        info.equivalent_width = 1000 * ld * |f| * (752634332 / 1000000000)) ∧
    |(752634332 / 1000000000 : ℝ) - Real.sqrt Real.pi / 2.355| <
      1 / 1000000 := by
  constructor
  · intro parameters cp data w coefficients co bs fm theta info ld f h1 h2 h
    unfold fit_profile_finalise at h
    cases hfull : chi_sq_full parameters fm.p1 cp data w coefficients co bs with
    | error e => rw [hfull] at h; cases h
    | ok out =>
      obtain ⟨oc, orc, sp⟩ := out
      rw [hfull] at h
      dsimp only at h
      rw [if_pos rfl, h1, h2] at h
      dsimp only at h
      injection h with h
      injection h with _ h
      rw [← h]
      unfold profile_integral_gaussian
      ring
  · have ha : (1.772453 : ℝ) < Real.sqrt Real.pi := by
      have : (1.772453 : ℝ) ^ 2 < Real.pi := by nlinarith [Real.pi_gt_d6]
      nlinarith [Real.sq_sqrt (le_of_lt Real.pi_pos), Real.sqrt_nonneg Real.pi]
    have hb : Real.sqrt Real.pi < 1.772454 := by
      have h2 : Real.pi < (1.772454 : ℝ) ^ 2 := by nlinarith [Real.pi_lt_d6]
      nlinarith [Real.sq_sqrt (le_of_lt Real.pi_pos), Real.sqrt_nonneg Real.pi]
    have hc : (0:ℝ) < 2.355 := by norm_num
    have ha2 : (1.772453 : ℝ) / 2.355 < Real.sqrt Real.pi / 2.355 :=
      div_lt_div_of_pos_right ha hc
    have hb2 : Real.sqrt Real.pi / 2.355 < (1.772454 : ℝ) / 2.355 :=
      div_lt_div_of_pos_right hb hc
    rw [abs_lt]
    constructor <;> linarith

/-- C1 witness: a concrete finalisation (best iterate line_depth = 1/2,
fwhm = -1) whose stored equivalent width is 1000 * (1/2) * |-1| * 0.752634332. -/
theorem claim_C1_equivalent_width_formula_witness :
    ({ chi_sq_value := none
       r_chi_sq := none
       fopt := 7
       num_iter := 11
       num_funcalls := 23
       warnflag := 0
       profile_kind := "gaussian"
       equivalent_width := 1000 * profile_integral_gaussian (1/2) (-1)
       spectra := none } : ProfileFitInfo).equivalent_width =
      1000 * (1/2) * |(-1 : ℚ)| * (752634332 / 1000000000) :=
  claim_C1_equivalent_width_formula.1 ["line_depth", "fwhm"] []
    ⟨[1, 2, 3], [some 1, some (1/2), some 1], [some 1, some 1, some 1]⟩
    3 [1] none none ⟨[1/2, -1], 7, 11, 23, 0⟩
    [("line_depth", 1/2), ("fwhm", -1)]
    { chi_sq_value := none
      r_chi_sq := none
      fopt := 7
      num_iter := 11
      num_funcalls := 23
      warnflag := 0
      profile_kind := "gaussian"
      equivalent_width := 1000 * profile_integral_gaussian (1/2) (-1)
      spectra := none } (1/2) (-1)
    (by with_unfolding_all rfl) (by with_unfolding_all rfl)
    (by with_unfolding_all rfl)

end Oracle
